import Mathlib

/-!
Shallow embedding of the rank-orchestration routes of the Rank_your_resume
repository (backend/src/routes/rank.js) together with the persisted session
schema (the mongoose RankResult model).  JavaScript objects that flow through
the handlers are modelled as association lists of JSON-like values; the
MongoDB collection behind `RankResult` is modelled as a list of sessions;
the external scoring engine and the persistence layer are inputs of each
handler (their outcome is a parameter), mirroring the fact that the routes
only consume their results.
-/

namespace RankYourResume

/-- JSON-like values exchanged with the scoring engine and stored in
sessions.  Numbers are modelled as rationals (the claims under study never
depend on floating-point rounding). -/
inductive JsValue where
  | null : JsValue
  | bool : Bool → JsValue
  | num : ℚ → JsValue
  | str : String → JsValue
  | arr : List JsValue → JsValue
  | obj : List (String × JsValue) → JsValue

/-- A JavaScript object: an association list of fields (keys are unique in
real JS objects; lookup takes the first binding). -/
abbrev JsObj := List (String × JsValue)

/-- Field lookup on a JavaScript object (`o.k`). -/
def lookupField (o : JsObj) (k : String) : Option JsValue :=
  (o.find? (fun kv => kv.1 == k)).map (·.2)

/-- `data.rankings || []` followed by treating each element as an object,
as the handlers do before mapping over the rankings. -/
def dataRankings (data : JsObj) : List JsObj :=
  match lookupField data "rankings" with
  | some (JsValue.arr items) =>
      items.map (fun v => match v with
        | JsValue.obj o => o
        | _ => [])
  | _ => []

/-- The normalizer applied to each engine ranking record:
`({ resume: _r, ...rest }) => rest` — drop the engine-local `resume`
reference, keep every other field (values and order untouched). -/
def stripResume (r : JsObj) : JsObj :=
  r.filter (fun kv => kv.1 != "resume")

/-- Parsed optional weights object supplied by the caller
(`JSON.parse(weights)`): each of the four named fields may be present or
absent. -/
structure WeightsInput where
  semantic : Option ℚ := none
  skill : Option ℚ := none
  experience : Option ℚ := none
  education : Option ℚ := none
deriving DecidableEq, Repr

/-- Effective weights as persisted in a session (the mongoose schema always
materialises all four fields, via its per-field defaults). -/
structure Weights where
  semantic : ℚ
  skill : ℚ
  experience : ℚ
  education : ℚ
deriving DecidableEq, Repr

/-- The per-field defaults of `rankResultSchema.weights`:
semantic 0.5, skill 0.25, experience 0.15, education 0.1. -/
def defaultWeights : Weights :=
  { semantic := 1/2, skill := 1/4, experience := 3/20, education := 1/10 }

/-- Mongoose default application on the nested `weights` path: when no
weights document is supplied every field defaults; when one is supplied
each absent field defaults individually. -/
def applyWeightDefaults : Option WeightsInput → Weights
  | none => defaultWeights
  | some w =>
      { semantic := w.semantic.getD (1/2)
        skill := w.skill.getD (1/4)
        experience := w.experience.getD (3/20)
        education := w.education.getD (1/10) }

/-- One persisted ranking session (a `RankResult` document). -/
structure Session where
  sid : String
  owner : String
  jobDescription : String
  rankings : List JsObj
  weights : Weights
  createdAt : ℕ

/-- The `RankResult` collection. -/
abbrev Store := List Session

/-- A temporary file received by multer for an upload request. -/
structure TmpFile where
  path : String
  originalname : String
deriving DecidableEq, Repr

/-- An authenticated upload-path request (`POST /api/rank/upload`):
`jd = ""` models a missing or empty job description (both are falsy for
`!jd`); `weights` is the parsed optional weights JSON. -/
structure UploadRequest where
  userId : String
  jd : String
  files : List TmpFile
  weights : Option WeightsInput
deriving DecidableEq, Repr

/-- An authenticated stored-path request (`POST /api/rank/stored`). -/
structure StoredRequest where
  userId : String
  jd : String
  topK : ℕ
deriving DecidableEq, Repr

/-- Outcome of the `fetch` to the scoring engine, as seen by a handler. -/
inductive EngineResult where
  | connError : EngineResult
  | httpError : ℕ → String → EngineResult
  | badJson : EngineResult
  | ok : JsObj → EngineResult

/-- The error object a handler passes to `next(err)`; the app-level error
middleware answers `err.status || 500`. -/
inductive HandlerError where
  | connError : HandlerError
  | httpError : ℕ → String → HandlerError
  | decodeError : HandlerError
  | castError : HandlerError
  | persistError : HandlerError
deriving DecidableEq, Repr

/-- What a handler sends back: a 400 with an error message, an error passed
to the generic error middleware, a JSON body, a 404 `Not found.`, or a full
session document. -/
inductive HandlerResponse where
  | badRequest : String → HandlerResponse
  | passedToNext : HandlerError → HandlerResponse
  | jsonOk : JsObj → HandlerResponse
  | notFound : HandlerResponse
  | sessionOk : Session → HandlerResponse

/-- The error the engine failure turns into inside the catch block. -/
def engineError : EngineResult → Option HandlerError
  | .connError => some .connError
  | .httpError st body => some (.httpError st body)
  | .badJson => some .decodeError
  | .ok _ => none

/-- Everything observable about one handler run: the response, the resulting
session collection, the temp-file paths whose deletion was requested, and
whether the scoring engine was contacted. -/
structure HandlerOutcome where
  response : HandlerResponse
  store : Store
  deleted : List String
  engineCalled : Bool

/-- `POST /api/rank/upload` (rank.js lines 34–78).  `fsErr` tells, per path,
whether `fs.unlink` would report an error; the handler's callback `() => {}`
discards that report, which is why `fsErr` influences nothing below.
`persistOk` is whether `RankResult.create` succeeds; `newId` and `now` are
the ObjectId and timestamp mongoose would mint for the new document. -/
def uploadHandler (_fsErr : String → Bool) (req : UploadRequest)
    (eng : EngineResult) (persistOk : Bool) (newId : String) (now : ℕ)
    (store : Store) : HandlerOutcome :=
  if req.jd = "" then
    { response := .badRequest "jd (job description) is required."
      store := store
      deleted := req.files.map (·.path)
      engineCalled := false }
  else if req.files = [] then
    { response := .badRequest "At least one resume file is required."
      store := store
      deleted := req.files.map (·.path)
      engineCalled := false }
  else
    match eng with
    | .connError =>
        { response := .passedToNext .connError, store := store
          deleted := req.files.map (·.path), engineCalled := true }
    | .httpError st body =>
        { response := .passedToNext (.httpError st body), store := store
          deleted := req.files.map (·.path), engineCalled := true }
    | .badJson =>
        { response := .passedToNext .decodeError, store := store
          deleted := req.files.map (·.path), engineCalled := true }
    | .ok data =>
        if persistOk then
          let cleanRankings := (dataRankings data).map stripResume
          let saved : Session :=
            { sid := newId
              owner := req.userId
              jobDescription := req.jd
              rankings := cleanRankings
              weights := applyWeightDefaults req.weights
              createdAt := now }
          { response := .jsonOk (("resultId", .str newId) :: data)
            store := store ++ [saved]
            deleted := req.files.map (·.path)
            engineCalled := true }
        else
          { response := .passedToNext .persistError, store := store
            deleted := req.files.map (·.path), engineCalled := true }

/-- `POST /api/rank/stored` (rank.js lines 87–112): no files, no caller
weights; `RankResult.create` is invoked without a `weights` key. -/
def storedHandler (req : StoredRequest) (eng : EngineResult)
    (persistOk : Bool) (newId : String) (now : ℕ) (store : Store) :
    HandlerOutcome :=
  if req.jd = "" then
    { response := .badRequest "jd is required."
      store := store, deleted := [], engineCalled := false }
  else
    match eng with
    | .connError =>
        { response := .passedToNext .connError, store := store
          deleted := [], engineCalled := true }
    | .httpError st body =>
        { response := .passedToNext (.httpError st body), store := store
          deleted := [], engineCalled := true }
    | .badJson =>
        { response := .passedToNext .decodeError, store := store
          deleted := [], engineCalled := true }
    | .ok data =>
        if persistOk then
          let cleanRankings := (dataRankings data).map stripResume
          let saved : Session :=
            { sid := newId
              owner := req.userId
              jobDescription := req.jd
              rankings := cleanRankings
              weights := applyWeightDefaults none
              createdAt := now }
          { response := .jsonOk (("resultId", .str newId) :: data)
            store := store ++ [saved]
            deleted := []
            engineCalled := true }
        else
          { response := .passedToNext .persistError, store := store
            deleted := [], engineCalled := true }

/-- Hexadecimal digit test used by the ObjectId cast model. -/
def isHexChar (c : Char) : Bool :=
  c.isDigit || "abcdefABCDEF".toList.contains c

/-- Mongoose ObjectId cast admissibility for a string: a 24-character hex
string, or any 12-character string (taken as raw bytes). -/
def isValidObjectId (s : String) : Bool :=
  (s.length == 24 && s.toList.all isHexChar) || s.length == 12

/-- The fields kept per ranking item by the history list projection
(`.select("... rankings.rank rankings.filename rankings.total_score
rankings.fit_category ...")`). -/
def summaryKeys : List String :=
  ["rank", "filename", "total_score", "fit_category"]

/-- Projection of one stored ranking item to its list-view summary. -/
def projectItem (r : JsObj) : JsObj :=
  r.filter (fun kv => summaryKeys.contains kv.1)

/-- One entry of the history list response: document id, the selected
top-level fields, and the projected ranking items. -/
structure SessionSummary where
  sid : String
  jobDescription : String
  createdAt : ℕ
  rankings : List JsObj

/-- Insertion step of `.sort({ createdAt: -1 })` (newest first). -/
def insertByCreatedAt (s : Session) : List Session → List Session
  | [] => [s]
  | t :: ts =>
      if t.createdAt ≤ s.createdAt then s :: t :: ts
      else t :: insertByCreatedAt s ts

/-- `.sort({ createdAt: -1 })`: sessions ordered by descending creation
time. -/
def sortByCreatedAtDesc (l : List Session) : List Session :=
  l.foldr insertByCreatedAt []

/-- `GET /api/rank/history` (rank.js lines 118–128): filter by owner, sort
newest first, limit 50, project each session to its summary. -/
def historyList (owner : String) (store : Store) : List SessionSummary :=
  ((sortByCreatedAtDesc (store.filter (fun s => s.owner == owner))).take 50).map
    (fun s =>
      { sid := s.sid
        jobDescription := s.jobDescription
        createdAt := s.createdAt
        rankings := s.rankings.map projectItem })

/-- `GET /api/rank/history/:id` (rank.js lines 134–142):
`findOne({ _id: id, owner })` first casts `id` to an ObjectId — a malformed
id raises a CastError that the catch block passes to `next`; otherwise a
missing match answers 404. -/
def historyDetail (owner id : String) (store : Store) : HandlerResponse :=
  if isValidObjectId id then
    match store.find? (fun s => s.sid == id && s.owner == owner) with
    | some s => .sessionOk s
    | none => .notFound
  else
    .passedToNext .castError


/-! ### Helper lemmas shared by several results -/

theorem mem_stripResume (r : JsObj) (kv : String × JsValue) :
    kv ∈ stripResume r ↔ kv ∈ r ∧ kv.1 ≠ "resume" := by
  simp [stripResume, List.mem_filter]

theorem stripResume_sublist (r : JsObj) : (stripResume r).Sublist r :=
  List.filter_sublist r

theorem mem_projectItem (r : JsObj) (kv : String × JsValue) :
    kv ∈ projectItem r ↔ kv ∈ r ∧ kv.1 ∈ summaryKeys := by
  simp [projectItem, List.mem_filter, List.contains]

theorem mem_insertByCreatedAt (s t : Session) (l : List Session) :
    t ∈ insertByCreatedAt s l ↔ t = s ∨ t ∈ l := by
  induction l with
  | nil => simp [insertByCreatedAt]
  | cons hd tl ih =>
      simp only [insertByCreatedAt]
      split
      · simp [List.mem_cons]
      · simp only [List.mem_cons, ih]
        tauto

theorem pairwise_insertByCreatedAt (s : Session) (l : List Session)
    (h : l.Pairwise (fun a b => b.createdAt ≤ a.createdAt)) :
    (insertByCreatedAt s l).Pairwise (fun a b => b.createdAt ≤ a.createdAt) := by
  induction l with
  | nil => simp [insertByCreatedAt]
  | cons hd tl ih =>
      rcases List.pairwise_cons.mp h with ⟨hhd, htl⟩
      simp only [insertByCreatedAt]
      split
      · rename_i hle
        refine List.pairwise_cons.mpr ⟨?_, h⟩
        intro b hb
        rcases List.mem_cons.mp hb with rfl | hbtl
        · exact hle
        · exact le_trans (hhd b hbtl) hle
      · rename_i hgt
        push_neg at hgt
        refine List.pairwise_cons.mpr ⟨?_, ih htl⟩
        intro b hb
        rcases (mem_insertByCreatedAt s b tl).mp hb with rfl | hbtl
        · exact le_of_lt hgt
        · exact hhd b hbtl

theorem pairwise_sortByCreatedAtDesc (l : List Session) :
    (sortByCreatedAtDesc l).Pairwise (fun a b => b.createdAt ≤ a.createdAt) := by
  induction l with
  | nil => simp [sortByCreatedAtDesc]
  | cons hd tl ih => exact pairwise_insertByCreatedAt hd _ ih

theorem mem_sortByCreatedAtDesc (l : List Session) (t : Session) :
    t ∈ sortByCreatedAtDesc l ↔ t ∈ l := by
  induction l with
  | nil => simp [sortByCreatedAtDesc]
  | cons hd tl ih =>
      have : sortByCreatedAtDesc (hd :: tl) = insertByCreatedAt hd (sortByCreatedAtDesc tl) := rfl
      rw [this, mem_insertByCreatedAt]
      simp only [List.mem_cons, ih]

/-! ### Claims -/

/-- C2: on either submission path, when the scoring-engine call fails
(connection error, non-success HTTP status, or malformed response body),
the engine was indeed contacted, the failure is surfaced to the caller via
the error middleware, and the session collection is left exactly as it
was — no session record is created. -/
theorem C2_engine_failure_no_session (fsErr : String → Bool)
    (req : UploadRequest) (reqS : StoredRequest) (eng : EngineResult)
    (persistOk : Bool) (newId : String) (now : ℕ) (store : Store)
    (he : HandlerError) (hfail : engineError eng = some he)
    (hjdU : req.jd ≠ "") (hfU : req.files ≠ []) (hjdS : reqS.jd ≠ "") :
    (uploadHandler fsErr req eng persistOk newId now store).engineCalled = true ∧
    (uploadHandler fsErr req eng persistOk newId now store).store = store ∧
    (uploadHandler fsErr req eng persistOk newId now store).response
        = .passedToNext he ∧
    (storedHandler reqS eng persistOk newId now store).engineCalled = true ∧
    (storedHandler reqS eng persistOk newId now store).store = store ∧
    (storedHandler reqS eng persistOk newId now store).response
        = .passedToNext he := by
  cases eng <;> simp_all [uploadHandler, storedHandler, engineError]

/-- C2 witness: a concrete engine connection failure on both paths leaves a
one-session store unchanged and answers through the error middleware. -/
theorem C2_engine_failure_no_session_witness :
    (uploadHandler (fun _ => false)
        ⟨"u1", "Senior backend engineer", [⟨"tmp/a", "alice.pdf"⟩], none⟩
        .connError true "507f1f77bcf86cd799439011" 5 []).store = [] ∧
    (uploadHandler (fun _ => false)
        ⟨"u1", "Senior backend engineer", [⟨"tmp/a", "alice.pdf"⟩], none⟩
        .connError true "507f1f77bcf86cd799439011" 5 []).response
        = .passedToNext .connError ∧
    (storedHandler ⟨"u1", "Senior backend engineer", 20⟩
        .connError true "507f1f77bcf86cd799439011" 5 []).store = [] := by
  have h := C2_engine_failure_no_session (fun _ => false)
    ⟨"u1", "Senior backend engineer", [⟨"tmp/a", "alice.pdf"⟩], none⟩
    ⟨"u1", "Senior backend engineer", 20⟩ .connError true
    "507f1f77bcf86cd799439011" 5 [] .connError rfl
    (by decide) (by decide) (by decide)
  exact ⟨h.2.1, h.2.2.1, h.2.2.2.2.1⟩

/-- C3: on the upload path, every exit state (validation failure, engine
failure, persistence failure, success) requests deletion of exactly the
temporary files received for the request, and the run is entirely
independent of whether the file deletions succeed or fail — the unlink
callback discards the error. -/
theorem C3_upload_temp_cleanup (fsErr fsErr' : String → Bool)
    (req : UploadRequest) (eng : EngineResult) (persistOk : Bool)
    (newId : String) (now : ℕ) (store : Store) :
    (uploadHandler fsErr req eng persistOk newId now store).deleted
        = req.files.map TmpFile.path ∧
    uploadHandler fsErr req eng persistOk newId now store
        = uploadHandler fsErr' req eng persistOk newId now store := by
  constructor
  · by_cases hjd : req.jd = ""
    · simp [uploadHandler, hjd]
    · by_cases hf : req.files = []
      · simp [uploadHandler, hjd, hf]
      · cases eng <;> cases persistOk <;> simp [uploadHandler, hjd, hf]
  · rfl

/-- C5: an upload-path submission with an empty/missing job description or
with zero documents gets a 400 Bad Request, never contacts the scoring
engine, and creates no session. -/
theorem C5_upload_validation (fsErr : String → Bool) (req : UploadRequest)
    (eng : EngineResult) (persistOk : Bool) (newId : String) (now : ℕ)
    (store : Store) (h : req.jd = "" ∨ req.files = []) :
    (∃ msg, (uploadHandler fsErr req eng persistOk newId now store).response
        = .badRequest msg) ∧
    (uploadHandler fsErr req eng persistOk newId now store).engineCalled
        = false ∧
    (uploadHandler fsErr req eng persistOk newId now store).store = store := by
  by_cases hjd : req.jd = ""
  · refine ⟨⟨"jd (job description) is required.", ?_⟩, ?_, ?_⟩ <;>
      simp [uploadHandler, hjd]
  · rcases h with h | h
    · exact absurd h hjd
    · refine ⟨⟨"At least one resume file is required.", ?_⟩, ?_, ?_⟩ <;>
        simp [uploadHandler, hjd, h]

/-- C5 witness: a concrete zero-document upload submission is rejected with
a 400, without an engine call and without touching the store. -/
theorem C5_upload_validation_witness :
    (∃ msg, (uploadHandler (fun _ => false)
        ⟨"u1", "Senior backend engineer", [], none⟩
        .connError true "507f1f77bcf86cd799439011" 5 []).response
        = .badRequest msg) ∧
    (uploadHandler (fun _ => false)
        ⟨"u1", "Senior backend engineer", [], none⟩
        .connError true "507f1f77bcf86cd799439011" 5 []).engineCalled
        = false ∧
    (uploadHandler (fun _ => false)
        ⟨"u1", "Senior backend engineer", [], none⟩
        .connError true "507f1f77bcf86cd799439011" 5 []).store = [] :=
  C5_upload_validation (fun _ => false)
    ⟨"u1", "Senior backend engineer", [], none⟩
    .connError true "507f1f77bcf86cd799439011" 5 [] (Or.inr rfl)

/-- C4: for a well-formed session id, a session owned by someone else and a
nonexistent session produce the very same outcome from the detail lookup —
the 404 Not found response; ownership is enforced inside the query. -/
theorem C4_ownership_scoped_lookup (owner id : String) (store : Store)
    (hvalid : isValidObjectId id = true) :
    ((∀ s ∈ store, s.sid = id → s.owner ≠ owner) →
        historyDetail owner id store = .notFound) ∧
    ((∀ s ∈ store, s.sid ≠ id) →
        historyDetail owner id store = .notFound) := by
  have main : (∀ s ∈ store, s.sid = id → s.owner ≠ owner) →
      historyDetail owner id store = .notFound := by
    intro h
    unfold historyDetail
    rw [if_pos hvalid]
    have hnone : store.find? (fun s => s.sid == id && s.owner == owner) = none := by
      rw [List.find?_eq_none]
      intro s hs
      simp only [Bool.and_eq_true, beq_iff_eq, not_and]
      intro hsid
      exact h s hs hsid
    rw [hnone]
  exact ⟨main, fun h => main (fun s hs hsid => absurd hsid (h s hs))⟩

/-- C4 witness: a valid id owned by `alice` is invisible to `bob`, with the
same 404 outcome as looking it up in an empty store. -/
theorem C4_ownership_scoped_lookup_witness :
    historyDetail "bob" "507f1f77bcf86cd799439011"
        [{ sid := "507f1f77bcf86cd799439011", owner := "alice",
           jobDescription := "jd", rankings := [],
           weights := defaultWeights, createdAt := 3 }] = .notFound ∧
    historyDetail "bob" "507f1f77bcf86cd799439011" [] = .notFound := by
  constructor
  · exact (C4_ownership_scoped_lookup "bob" "507f1f77bcf86cd799439011"
      [{ sid := "507f1f77bcf86cd799439011", owner := "alice",
         jobDescription := "jd", rankings := [],
         weights := defaultWeights, createdAt := 3 }] (by decide)).1
      (by intro s hs hsid; simp only [List.mem_singleton] at hs; subst hs; decide)
  · exact (C4_ownership_scoped_lookup "bob" "507f1f77bcf86cd799439011" []
      (by decide)).1 (by intro s hs; simp at hs)

/-- C10: a syntactically malformed session id makes the detail lookup raise
a cast error that goes to the generic error middleware (a server error),
never the 404 outcome; and the 404 outcome arises only for a well-formed id
with no session matching both id and requesting owner. -/
theorem C10_malformed_id_is_server_error (owner id : String) (store : Store) :
    (isValidObjectId id = false →
        historyDetail owner id store = .passedToNext .castError) ∧
    (historyDetail owner id store = .notFound →
        isValidObjectId id = true ∧
        ∀ s ∈ store, ¬(s.sid = id ∧ s.owner = owner)) := by
  constructor
  · intro hbad
    unfold historyDetail
    rw [if_neg (by simp [hbad])]
  · intro hnf
    unfold historyDetail at hnf
    by_cases hvalid : isValidObjectId id = true
    · refine ⟨hvalid, ?_⟩
      rw [if_pos hvalid] at hnf
      rcases hfind : store.find? (fun s => s.sid == id && s.owner == owner) with _ | s
      · rw [List.find?_eq_none] at hfind
        intro s hs hcontra
        exact hfind s hs (by simp [hcontra.1, hcontra.2])
      · rw [hfind] at hnf
        exact absurd hnf (by simp)
    · rw [if_neg hvalid] at hnf
      exact absurd hnf (by simp)

/-- C10 witness: the malformed id `abc` (neither 24 hex characters nor 12
characters) yields the cast error passed to the error middleware. -/
theorem C10_malformed_id_is_server_error_witness :
    historyDetail "u1" "abc"
        [{ sid := "507f1f77bcf86cd799439011", owner := "u1",
           jobDescription := "jd", rankings := [],
           weights := defaultWeights, createdAt := 3 }]
        = .passedToNext .castError :=
  (C10_malformed_id_is_server_error "u1" "abc"
    [{ sid := "507f1f77bcf86cd799439011", owner := "u1",
       jobDescription := "jd", rankings := [],
       weights := defaultWeights, createdAt := 3 }]).1 (by decide)

/-- C1 counterexample: on a successful submission the response body spreads
the engine's raw envelope (`{ resultId, ...data }`), on the upload path and
the stored path alike, so the `rankings` array in the response still
carries the engine-local `resume` reference on each record, whereas the
normalized form of that record (the one that is persisted) has it
removed — the response rankings are NOT the normalized items. -/
theorem C1_response_not_normalized_counterexample :
    (uploadHandler (fun _ => false)
        { userId := "u1", jd := "Senior backend engineer",
          files := [{ path := "tmp/x", originalname := "alice.pdf" }],
          weights := none }
        (.ok [("count", .num 1),
              ("rankings", .arr [.obj [("resume", .str "alice.pdf"),
                                       ("rank", .num 1)]])])
        true "507f1f77bcf86cd799439011" 5 []).response
      = .jsonOk [("resultId", .str "507f1f77bcf86cd799439011"),
                 ("count", .num 1),
                 ("rankings", .arr [.obj [("resume", .str "alice.pdf"),
                                          ("rank", .num 1)]])] ∧
    (storedHandler { userId := "u1", jd := "Senior backend engineer",
                     topK := 20 }
        (.ok [("count", .num 1),
              ("rankings", .arr [.obj [("resume", .str "alice.pdf"),
                                       ("rank", .num 1)]])])
        true "507f1f77bcf86cd799439011" 5 []).response
      = .jsonOk [("resultId", .str "507f1f77bcf86cd799439011"),
                 ("count", .num 1),
                 ("rankings", .arr [.obj [("resume", .str "alice.pdf"),
                                          ("rank", .num 1)]])] ∧
    lookupField [("resume", .str "alice.pdf"), ("rank", .num 1)] "resume"
      = some (.str "alice.pdf") ∧
    stripResume [("resume", .str "alice.pdf"), ("rank", .num 1)]
      = [("rank", .num 1)] ∧
    lookupField (stripResume [("resume", .str "alice.pdf"), ("rank", .num 1)])
        "resume" = none :=
  ⟨rfl, rfl, rfl, rfl, rfl⟩

/-- C1 amended: on every successful submission, on the upload path and the
stored path alike, the *persisted* session's rankings are the normalized
items — each engine record with the engine-local `resume` reference removed
and every other field kept verbatim (same fields, same values, same
order) — while the response body returns `resultId` followed by the engine
envelope's fields verbatim (raw rankings included). -/
theorem C1_amended_normalization_persisted (fsErr : String → Bool)
    (req : UploadRequest) (reqS : StoredRequest) (data dataS : JsObj)
    (newId newIdS : String) (now nowS : ℕ) (store storeS : Store)
    (hjd : req.jd ≠ "") (hf : req.files ≠ []) (hjdS : reqS.jd ≠ "") :
    (uploadHandler fsErr req (.ok data) true newId now store).store
      = store ++ [{ sid := newId, owner := req.userId,
                    jobDescription := req.jd,
                    rankings := (dataRankings data).map stripResume,
                    weights := applyWeightDefaults req.weights,
                    createdAt := now }] ∧
    (uploadHandler fsErr req (.ok data) true newId now store).response
      = .jsonOk (("resultId", .str newId) :: data) ∧
    (storedHandler reqS (.ok dataS) true newIdS nowS storeS).store
      = storeS ++ [{ sid := newIdS, owner := reqS.userId,
                     jobDescription := reqS.jd,
                     rankings := (dataRankings dataS).map stripResume,
                     weights := applyWeightDefaults none,
                     createdAt := nowS }] ∧
    (storedHandler reqS (.ok dataS) true newIdS nowS storeS).response
      = .jsonOk (("resultId", .str newIdS) :: dataS) ∧
    (∀ r kv, kv ∈ stripResume r ↔ kv ∈ r ∧ kv.1 ≠ "resume") ∧
    (∀ r, (stripResume r).Sublist r) := by
  refine ⟨?_, ?_, ?_, ?_, mem_stripResume, stripResume_sublist⟩ <;>
    simp [uploadHandler, storedHandler, hjd, hf, hjdS]

/-- C1 amended witness: concrete runs of both handlers showing the
persisted rankings with `resume` stripped and the raw envelope echoed. -/
theorem C1_amended_normalization_persisted_witness :
    (uploadHandler (fun _ => false)
        { userId := "u1", jd := "Senior backend engineer",
          files := [{ path := "tmp/x", originalname := "alice.pdf" }],
          weights := none }
        (.ok [("count", .num 1),
              ("rankings", .arr [.obj [("resume", .str "alice.pdf"),
                                       ("rank", .num 1)]])])
        true "507f1f77bcf86cd799439011" 5 []).store
      = [{ sid := "507f1f77bcf86cd799439011", owner := "u1",
           jobDescription := "Senior backend engineer",
           rankings := [[("rank", .num 1)]],
           weights := defaultWeights, createdAt := 5 }] ∧
    (storedHandler { userId := "u1", jd := "Senior backend engineer",
                     topK := 20 }
        (.ok [("count", .num 1),
              ("rankings", .arr [.obj [("resume", .str "alice.pdf"),
                                       ("rank", .num 1)]])])
        true "507f1f77bcf86cd799439011" 5 []).store
      = [{ sid := "507f1f77bcf86cd799439011", owner := "u1",
           jobDescription := "Senior backend engineer",
           rankings := [[("rank", .num 1)]],
           weights := defaultWeights, createdAt := 5 }] := by
  have h := C1_amended_normalization_persisted (fun _ => false)
    { userId := "u1", jd := "Senior backend engineer",
      files := [{ path := "tmp/x", originalname := "alice.pdf" }],
      weights := none }
    { userId := "u1", jd := "Senior backend engineer", topK := 20 }
    [("count", .num 1),
     ("rankings", .arr [.obj [("resume", .str "alice.pdf"),
                              ("rank", .num 1)]])]
    [("count", .num 1),
     ("rankings", .arr [.obj [("resume", .str "alice.pdf"),
                              ("rank", .num 1)]])]
    "507f1f77bcf86cd799439011" "507f1f77bcf86cd799439011" 5 5 [] []
    (by decide) (by decide) (by decide)
  exact ⟨h.1, h.2.2.1⟩

/-! ### More helpers: lookups in a store extended with a fresh session -/

theorem find?_store_append_fresh (store : Store) (saved : Session)
    (owner : String) (hfresh : ∀ s ∈ store, s.sid ≠ saved.sid)
    (hown : saved.owner = owner) :
    (store ++ [saved]).find? (fun s => s.sid == saved.sid && s.owner == owner)
      = some saved := by
  rw [List.find?_append]
  have h1 : store.find? (fun s => s.sid == saved.sid && s.owner == owner)
      = none := by
    rw [List.find?_eq_none]
    intro s hs
    simp only [Bool.and_eq_true, beq_iff_eq, not_and]
    intro hsid
    exact absurd hsid (hfresh s hs)
  rw [h1]
  simp [List.find?, hown]

theorem historyDetail_append_fresh (store : Store) (saved : Session)
    (hvalid : isValidObjectId saved.sid = true)
    (hfresh : ∀ s ∈ store, s.sid ≠ saved.sid) :
    historyDetail saved.owner saved.sid (store ++ [saved])
      = .sessionOk saved := by
  unfold historyDetail
  rw [if_pos hvalid, find?_store_append_fresh store saved saved.owner hfresh rfl]

/-- C6 counterexample: no non-negativity check exists anywhere between
`JSON.parse(weights)` and `RankResult.create` (the schema declares no
minimum), so a supplied negative weight is parsed and persisted verbatim:
here semantic = -0.5 ends up in the created session unchanged, refuting
"each of the four named fields is parsed as a non-negative real number". -/
theorem C6_negative_weight_persisted_counterexample :
    (uploadHandler (fun _ => false)
        { userId := "u1", jd := "Senior backend engineer",
          files := [{ path := "tmp/x", originalname := "alice.pdf" }],
          weights := some { semantic := some (-(1/2)), skill := none,
                            experience := none, education := none } }
        (.ok []) true "507f1f77bcf86cd799439011" 5 []).store
      = [{ sid := "507f1f77bcf86cd799439011", owner := "u1",
           jobDescription := "Senior backend engineer",
           rankings := [],
           weights := { semantic := -(1/2), skill := 1/4,
                        experience := 3/20, education := 1/10 },
           createdAt := 5 }] ∧
    ({ semantic := -(1/2), skill := 1/4, experience := 3/20,
       education := 1/10 } : Weights).semantic < 0 := by
  constructor
  · rfl
  · norm_num

/-- C6 amended: on a successful upload submission each field present in the
supplied weights object is parsed as a real number and persisted verbatim —
negative values included, since no non-negativity check is enforced — while
every absent field falls back to its schema default, and with no weights
object supplied all four defaults {0.50, 0.25, 0.15, 0.10} are
persisted. -/
theorem C6_amended_weights_verbatim (fsErr : String → Bool)
    (req : UploadRequest) (data : JsObj) (newId : String) (now : ℕ)
    (store : Store) (hjd : req.jd ≠ "") (hf : req.files ≠ []) :
    ∃ sess, (uploadHandler fsErr req (.ok data) true newId now store).store
        = store ++ [sess] ∧
      (∀ wi, req.weights = some wi →
          sess.weights = { semantic := wi.semantic.getD (1/2),
                           skill := wi.skill.getD (1/4),
                           experience := wi.experience.getD (3/20),
                           education := wi.education.getD (1/10) } ∧
          (∀ q, wi.semantic = some q → sess.weights.semantic = q) ∧
          (∀ q, wi.skill = some q → sess.weights.skill = q) ∧
          (∀ q, wi.experience = some q → sess.weights.experience = q) ∧
          (∀ q, wi.education = some q → sess.weights.education = q)) ∧
      (req.weights = none → sess.weights = defaultWeights) ∧
      defaultWeights = { semantic := 1/2, skill := 1/4,
                         experience := 3/20, education := 1/10 } := by
  refine ⟨{ sid := newId, owner := req.userId, jobDescription := req.jd,
            rankings := (dataRankings data).map stripResume,
            weights := applyWeightDefaults req.weights,
            createdAt := now }, ?_, ?_, ?_, rfl⟩
  · simp [uploadHandler, hjd, hf]
  · intro wi hwi
    refine ⟨by simp [applyWeightDefaults, hwi], ?_, ?_, ?_, ?_⟩ <;>
      intro q hq <;> simp [applyWeightDefaults, hwi, hq]
  · intro hnone
    simp [applyWeightDefaults, hnone]

/-- C6 amended witness: a supplied weights object with only `semantic`
present persists that value plus the three remaining defaults. -/
theorem C6_amended_weights_verbatim_witness :
    ∃ sess, (uploadHandler (fun _ => false)
        { userId := "u1", jd := "Senior backend engineer",
          files := [{ path := "tmp/x", originalname := "alice.pdf" }],
          weights := some { semantic := some (7/10), skill := none,
                            experience := none, education := none } }
        (.ok []) true "507f1f77bcf86cd799439011" 5 []).store = [] ++ [sess] ∧
      sess.weights = { semantic := 7/10, skill := 1/4,
                       experience := 3/20, education := 1/10 } := by
  have h := C6_amended_weights_verbatim (fun _ => false)
    { userId := "u1", jd := "Senior backend engineer",
      files := [{ path := "tmp/x", originalname := "alice.pdf" }],
      weights := some { semantic := some (7/10), skill := none,
                        experience := none, education := none } }
    [] "507f1f77bcf86cd799439011" 5 [] (by decide) (by decide)
  rcases h with ⟨sess, hstore, hsome, _⟩
  refine ⟨sess, hstore, ?_⟩
  rw [(hsome _ rfl).1]
  rfl

/-- C7: a complete supplied weights object
{semantic 0.6, skill 0.2, experience 0.1, education 0.1} is persisted
verbatim in the created session, and the subsequent detail lookup for the
new session id by the same owner returns that session with exactly those
weights. -/
theorem C7_weights_roundtrip (fsErr : String → Bool) (req : UploadRequest)
    (data : JsObj) (newId : String) (now : ℕ) (store : Store)
    (hjd : req.jd ≠ "") (hf : req.files ≠ [])
    (hw : req.weights = some { semantic := some (3/5), skill := some (1/5),
                               experience := some (1/10),
                               education := some (1/10) })
    (hvalid : isValidObjectId newId = true)
    (hfresh : ∀ s ∈ store, s.sid ≠ newId) :
    ∃ sess, historyDetail req.userId newId
        (uploadHandler fsErr req (.ok data) true newId now store).store
        = .sessionOk sess ∧
      sess.weights = { semantic := 3/5, skill := 1/5,
                       experience := 1/10, education := 1/10 } ∧
      sess.owner = req.userId ∧ sess.jobDescription = req.jd := by
  have hstore : (uploadHandler fsErr req (.ok data) true newId now store).store
      = store ++ [{ sid := newId, owner := req.userId,
                    jobDescription := req.jd,
                    rankings := (dataRankings data).map stripResume,
                    weights := { semantic := 3/5, skill := 1/5,
                                 experience := 1/10, education := 1/10 },
                    createdAt := now }] := by
    simp [uploadHandler, hjd, hf, hw, applyWeightDefaults]
  rw [hstore]
  exact ⟨_, historyDetail_append_fresh store
      { sid := newId, owner := req.userId, jobDescription := req.jd,
        rankings := (dataRankings data).map stripResume,
        weights := { semantic := 3/5, skill := 1/5,
                     experience := 1/10, education := 1/10 },
        createdAt := now } hvalid hfresh, rfl, rfl, rfl⟩

/-- C7 witness: concrete round-trip of the weights
{semantic 0.6, skill 0.2, experience 0.1, education 0.1} through creation
and the detail lookup. -/
theorem C7_weights_roundtrip_witness :
    ∃ sess, historyDetail "u1" "507f1f77bcf86cd799439011"
        (uploadHandler (fun _ => false)
          { userId := "u1", jd := "Senior backend engineer",
            files := [{ path := "tmp/x", originalname := "alice.pdf" }],
            weights := some { semantic := some (3/5), skill := some (1/5),
                              experience := some (1/10),
                              education := some (1/10) } }
          (.ok []) true "507f1f77bcf86cd799439011" 5 []).store
        = .sessionOk sess ∧
      sess.weights = { semantic := 3/5, skill := 1/5,
                       experience := 1/10, education := 1/10 } := by
  have h := C7_weights_roundtrip (fun _ => false)
    { userId := "u1", jd := "Senior backend engineer",
      files := [{ path := "tmp/x", originalname := "alice.pdf" }],
      weights := some { semantic := some (3/5), skill := some (1/5),
                        experience := some (1/10),
                        education := some (1/10) } }
    [] "507f1f77bcf86cd799439011" 5 [] (by decide) (by decide) rfl
    (by decide) (by intro s hs; simp at hs)
  rcases h with ⟨sess, hlook, hweights, _⟩
  exact ⟨sess, hlook, hweights⟩

/-- C8: the history list for an owner holds at most 50 summaries, ordered
newest first by creation time; every summary stems from one of the owner's
stored sessions and carries its job description, creation time, and the
rankings projected to exactly the fields rank, filename, total_score and
fit_category. -/
theorem C8_history_list_projection (owner : String) (store : Store) :
    (historyList owner store).length ≤ 50 ∧
    (historyList owner store).Pairwise
        (fun a b => b.createdAt ≤ a.createdAt) ∧
    (∀ y ∈ historyList owner store, ∃ s ∈ store, s.owner = owner ∧
        y.jobDescription = s.jobDescription ∧ y.createdAt = s.createdAt ∧
        y.rankings = s.rankings.map projectItem) ∧
    (∀ r kv, kv ∈ projectItem r ↔ kv ∈ r ∧ kv.1 ∈ summaryKeys) := by
  refine ⟨?_, ?_, ?_, mem_projectItem⟩
  · simp only [historyList, List.length_map, List.length_take]
    omega
  · have hsorted :=
      pairwise_sortByCreatedAtDesc (store.filter (fun s => s.owner == owner))
    have htake := List.Pairwise.sublist (List.take_sublist 50 _) hsorted
    exact List.pairwise_map.mpr htake
  · intro y hy
    rcases List.mem_map.mp hy with ⟨s, hs, rfl⟩
    have hs' : s ∈ sortByCreatedAtDesc
        (store.filter (fun s => s.owner == owner)) :=
      (List.take_sublist 50 _).subset hs
    rw [mem_sortByCreatedAtDesc] at hs'
    rcases List.mem_filter.mp hs' with ⟨hmem, hown⟩
    exact ⟨s, hmem, by simpa using hown, rfl, rfl, rfl⟩

/-- C9: the stored-ranking path creates its session without any
caller-supplied weights, so the persisted session carries exactly the four
schema defaults {0.50, 0.25, 0.15, 0.10}, which is also what the detail
lookup then returns. -/
theorem C9_stored_path_default_weights (req : StoredRequest) (data : JsObj)
    (newId : String) (now : ℕ) (store : Store) (hjd : req.jd ≠ "")
    (hvalid : isValidObjectId newId = true)
    (hfresh : ∀ s ∈ store, s.sid ≠ newId) :
    (storedHandler req (.ok data) true newId now store).store
      = store ++ [{ sid := newId, owner := req.userId,
                    jobDescription := req.jd,
                    rankings := (dataRankings data).map stripResume,
                    weights := defaultWeights, createdAt := now }] ∧
    (∃ sess, historyDetail req.userId newId
        (storedHandler req (.ok data) true newId now store).store
        = .sessionOk sess ∧ sess.weights = defaultWeights) ∧
    defaultWeights = { semantic := 1/2, skill := 1/4,
                       experience := 3/20, education := 1/10 } := by
  have hstore : (storedHandler req (.ok data) true newId now store).store
      = store ++ [{ sid := newId, owner := req.userId,
                    jobDescription := req.jd,
                    rankings := (dataRankings data).map stripResume,
                    weights := defaultWeights, createdAt := now }] := by
    simp [storedHandler, hjd, applyWeightDefaults]
  refine ⟨hstore, ?_, rfl⟩
  rw [hstore]
  exact ⟨_, historyDetail_append_fresh store
      { sid := newId, owner := req.userId, jobDescription := req.jd,
        rankings := (dataRankings data).map stripResume,
        weights := defaultWeights, createdAt := now } hvalid hfresh, rfl⟩

/-- C9 witness: a concrete stored-path submission persists exactly the
default weights and the detail lookup returns them. -/
theorem C9_stored_path_default_weights_witness :
    ∃ sess, historyDetail "u1" "507f1f77bcf86cd799439011"
        (storedHandler ⟨"u1", "Senior backend engineer", 20⟩
          (.ok []) true "507f1f77bcf86cd799439011" 5 []).store
        = .sessionOk sess ∧ sess.weights = defaultWeights := by
  have h := C9_stored_path_default_weights
    ⟨"u1", "Senior backend engineer", 20⟩ [] "507f1f77bcf86cd799439011" 5 []
    (by decide) (by decide) (by intro s hs; simp at hs)
  exact h.2.1

end RankYourResume
